import Mathlib

/-!
Shallow embedding of the cncjs-py-pendant input-to-motion core:
the mapping model (src/command_mapping.py), the per-tick motion command
synthesizer (src/pendant.py, get_commands) and the gamepad protocol
decoder / input state tracker (src/gamepad.py).

Python floats are modelled as rationals (every value the claims exercise
is an exact decimal, so the comparisons agree with binary64); the default
trigger threshold -math.inf is modelled as `none` (x > -inf holds for
every float x); Python dicts are association lists updated in place with
insertion at the end, matching dict ordering semantics; code that can
raise is modelled in `Except`.
-/

/-! ## src/command_mapping.py -/

/-- Command (command_mapping.py line 10): an individual command to be sent
to CNCjs, a sequence of string arguments. -/
structure Command where
  arguments : List String
deriving DecidableEq, Repr

/-- MovementAxis (command_mapping.py line 23): axis/plane of movement. -/
inductive MovementAxis
  | X
  | Y
  | Z
deriving DecidableEq, Repr

/-- Enum value of a MovementAxis, as used in the g-code string. -/
def MovementAxis.value : MovementAxis → String
  | .X => "X"
  | .Y => "Y"
  | .Z => "Z"

/-- Direction (command_mapping.py line 30): direction of the movement. -/
inductive Direction
  | POSITIVE
  | NEGATIVE
deriving DecidableEq, Repr

/-- Enum value of a Direction (POSITIVE = 1, NEGATIVE = -1). -/
def Direction.value : Direction → Int
  | .POSITIVE => 1
  | .NEGATIVE => -1

/-- MagnitudeAxis (command_mapping.py line 36): how to convert an axis
input into movement steps.  `trigger_if_above = none` models the default
`-math.inf` ("always triggered"). -/
structure MagnitudeAxis where
  label : String := ""
  slow_move_step : ℚ := 1/10
  mid_move_step : ℚ := 1
  fast_move_step : ℚ := 10
  slow_when_below : ℚ := 0
  fast_when_above : ℚ := 4/5
  trigger_if_above : Option ℚ := none
  use_absolute_input : Bool := false
deriving DecidableEq, Repr

/-- has_triggered (command_mapping.py line 69): fold by absolute value if
configured, then compare against the trigger threshold; the default
threshold `-math.inf` (`none`) is exceeded by every input. -/
def MagnitudeAxis.has_triggered (m : MagnitudeAxis) (input : ℚ) : Bool :=
  let i := if m.use_absolute_input then |input| else input
  match m.trigger_if_above with
  | none => true
  | some t => decide (t < i)

/-- travel_distance (command_mapping.py line 79): three-band step lookup. -/
def MagnitudeAxis.travel_distance (m : MagnitudeAxis) (input : ℚ) : ℚ :=
  let i := if m.use_absolute_input then |input| else input
  if i < m.slow_when_below then m.slow_move_step
  else if m.fast_when_above < i then m.fast_move_step
  else m.mid_move_step

/-- MappedCommand (command_mapping.py line 95): a command mapped to
joystick inputs. -/
structure MappedCommand where
  button : String := ""
  axis : Option MagnitudeAxis := none
  reverse_axis_direction : Bool := false
  commands : List Command := []
  direction : Option Direction := none
  movement_axis : Option MovementAxis := none
  repeat_if_pressed : Bool := false
  magnitude_axis : Option MagnitudeAxis := none
deriving DecidableEq, Repr

/-- axis_direction_multiplier (command_mapping.py line 124). -/
def MappedCommand.axis_direction_multiplier (a : MappedCommand) : Int :=
  if a.reverse_axis_direction then -1 else 1

/-- homing factory (command_mapping.py line 130). -/
def homing (button : String) : MappedCommand :=
  { button := button, commands := [⟨["homing"]⟩] }

/-- zero factory (command_mapping.py line 134). -/
def zero (button : String) : MappedCommand :=
  { button := button,
    commands := [⟨["gcode", "G90 X0 Y0"]⟩, ⟨["gcode", "G90 Z0"]⟩] }

/-- set_zero factory (command_mapping.py line 142). -/
def set_zero (button : String) : MappedCommand :=
  { button := button, commands := [⟨["gcode", "G10 L20 P1 X0 Y0 Z0"]⟩] }

/-- directional_buttons factory (command_mapping.py line 147). -/
def directional_buttons (movement_axis : MovementAxis)
    (positive_button negative_button : String)
    (magnitude_axis : MagnitudeAxis) : List MappedCommand :=
  [{ button := positive_button, movement_axis := some movement_axis,
     direction := some .POSITIVE, magnitude_axis := some magnitude_axis,
     repeat_if_pressed := true },
   { button := negative_button, movement_axis := some movement_axis,
     direction := some .NEGATIVE, magnitude_axis := some magnitude_axis,
     repeat_if_pressed := true }]

/-- xy_joystick_axis factory (command_mapping.py line 188). -/
def xy_joystick_axis (label : String) : MagnitudeAxis :=
  { label := label, slow_move_step := 1/10, mid_move_step := 1,
    fast_move_step := 10, slow_when_below := 2/5, fast_when_above := 4/5,
    trigger_if_above := some (1/10), use_absolute_input := true }

/-- z_joystick_axis factory (command_mapping.py line 201). -/
def z_joystick_axis (label : String) : MagnitudeAxis :=
  { label := label, slow_move_step := 1/10, mid_move_step := 1/2,
    fast_move_step := 5/2, slow_when_below := 2/5, fast_when_above := 4/5,
    trigger_if_above := some (1/10), use_absolute_input := true }

/-! ## src/pendant.py : the motion command synthesizer -/

/-- Move (pendant.py line 20): per-movement-axis accumulator.  The Python
default Move() carries a default-constructed MagnitudeAxis; the button
branch of the loop copies `action.magnitude_axis`, an Optional, so the
field is an Option here, `some` default initially. -/
structure Move where
  direction : Int := 0
  magnitude_axis : Option MagnitudeAxis := some {}
deriving DecidableEq, Repr

/-- Python runtime errors get_commands can raise: ZeroDivisionError from
`axis_value / abs(axis_value)` at 0.0, AttributeError from using a None
magnitude axis or a None movement axis key in the final loop. -/
inductive PyErr
  | zeroDivision
  | attrError
deriving DecidableEq, Repr

/-- Python dict assignment d[k] = v on an association list: replace in
place if the key is present, append at the end otherwise (dicts preserve
first-insertion order of keys). -/
def setK {κ α : Type} [DecidableEq κ] : List (κ × α) → κ → α → List (κ × α)
  | [], k, v => [(k, v)]
  | (k', v') :: rest, k, v =>
      if k' = k then (k, v) :: rest else (k', v') :: setK rest k v

/-- Read-modify-write of a `collections.defaultdict(Move)` entry: reading
a missing key materialises a default Move, the mutation is then stored. -/
def updMoves (m : List (Option MovementAxis × Move)) (k : Option MovementAxis)
    (f : Move → Move) : List (Option MovementAxis × Move) :=
  setK m k (f ((m.lookup k).getD {}))

/-- Query surface of the gamepad as the synthesizer sees it (is_pressed,
was-pressed with consume-on-read, axis value by label).  Lookups are
modelled as total functions: spec section 4.4 requires the mapping table
and the device name tables to be mutually consistent, and no claim about
the synthesizer concerns a failing lookup. -/
structure Pad where
  pressed : String → Bool
  wasPressed : String → Bool
  axisVal : String → ℚ

/-- been_pressed as the synthesizer calls it (gamepad.py line 300):
consume-on-read — a true flag is cleared and reported, a false flag is
reported without a write. -/
def Pad.beenPressed (p : Pad) (name : String) : Bool × Pad :=
  if p.wasPressed name then
    (true, { p with wasPressed := fun n => if n = name then false else p.wasPressed n })
  else (false, p)

/-- The `pressed` computation of the loop body (pendant.py line 31): level
read for repeat_if_pressed, edge consume otherwise; a falsy (empty) button
name skips the whole branch, so nothing is pressed and no flag is read. -/
def pressedThisTick (a : MappedCommand) (p : Pad) : Bool × Pad :=
  if a.button ≠ "" then
    if a.repeat_if_pressed then (p.pressed a.button, p) else p.beenPressed a.button
  else (false, p)

/-- int(v / abs(v)) (pendant.py line 44): exactly ±1 for v ≠ 0; Python
raises ZeroDivisionError at v = 0.0. -/
def signDiv (v : ℚ) : Except PyErr Int :=
  if v = 0 then .error .zeroDivision
  else .ok (if 0 < v then 1 else -1)

/-- Result of the mapping-list loop: an early return of a fixed command
sequence, or falling through with the final pad state and accumulators. -/
inductive LoopRes
  | ret : List Command → LoopRes
  | fall : Pad → List (Option MovementAxis × Move) → LoopRes

/-- One iteration of the loop over mapped commands (pendant.py lines
29-45): button branch (fixed-command short-circuit, then directional
accumulation), then axis branch (trigger test, sign-of-value contribution,
magnitude source assignment). -/
def stepOne (a : MappedCommand) (p : Pad)
    (m : List (Option MovementAxis × Move)) : Except PyErr LoopRes :=
  let pp := pressedThisTick a p
  let pressed := pp.1
  let p := pp.2
  if pressed && !a.commands.isEmpty then .ok (.ret a.commands)
  else
    let m :=
      if pressed && a.movement_axis.isSome && a.direction.isSome then
        updMoves m a.movement_axis (fun mv =>
          { direction := mv.direction + ((a.direction.map Direction.value).getD 0),
            magnitude_axis := a.magnitude_axis })
      else m
    match a.axis with
    | none => .ok (.fall p m)
    | some ax =>
      let v := p.axisVal ax.label
      if ax.has_triggered v then
        match signDiv v with
        | .error e => .error e
        | .ok s =>
          .ok (.fall p (updMoves m a.movement_axis (fun mv =>
            { direction := mv.direction + s * a.axis_direction_multiplier,
              magnitude_axis := some ax })))
      else .ok (.fall p m)

/-- The full loop over the mapping list, threading the pad state (edge
flags are consumed as they are read) and the per-axis accumulators. -/
def runActions : List MappedCommand → Pad → List (Option MovementAxis × Move) →
    Except PyErr LoopRes
  | [], p, m => .ok (.fall p m)
  | a :: rest, p, m =>
    match stepOne a p m with
    | .error e => .error e
    | .ok (.ret cs) => .ok (.ret cs)
    | .ok (.fall p' m') => runActions rest p' m'

/-- Python's rendering of the move amount in the f-string (pendant.py
line 53).  Every distance and direction the mapping tables produce for
the verified scenarios is an integer, rendered without a decimal point
(the steps are int literals in the source); non-integral rationals fall
back to the Rat printer. -/
def fmtNum (q : ℚ) : String :=
  if q.den = 1 then toString q.num else toString q

/-- The trailing loop over `moves.items()` (pendant.py lines 49-53):
each axis with a non-zero accumulated direction contributes the string
axisLabel ++ (travel distance of the magnitude source's current value
times the accumulated direction).  A None magnitude axis or None key
reproduces the AttributeError the Python would raise. -/
def finishMoves (p : Pad) : List (Option MovementAxis × Move) →
    Except PyErr (List String)
  | [] => .ok []
  | (oax, mv) :: rest =>
    if mv.direction ≠ 0 then
      match mv.magnitude_axis with
      | none => .error .attrError
      | some mag =>
        match oax with
        | none => .error .attrError
        | some ax =>
          match finishMoves p rest with
          | .error e => .error e
          | .ok tail =>
            .ok ((ax.value ++ fmtNum (mag.travel_distance (p.axisVal mag.label) * mv.direction)) :: tail)
    else finishMoves p rest

/-- get_commands (pendant.py line 26): run the loop; an early return is
the tick's result; otherwise bundle the per-axis increments as
("gcode", "G91 " ++ moves) followed by ("gcode", "G90"), or return
nothing when no increment was produced. -/
def get_commands (actions : List MappedCommand) (p : Pad) :
    Except PyErr (List Command) :=
  match runActions actions p [] with
  | .error e => .error e
  | .ok (.ret cs) => .ok cs
  | .ok (.fall p' m) =>
    match finishMoves p' m with
    | .error e => .error e
    | .ok gm =>
      if gm.isEmpty then .ok []
      else .ok [⟨["gcode", String.intercalate " " ("G91" :: gm)]⟩, ⟨["gcode", "G90"]⟩]

/-! ## Supporting concrete inputs for the synthesizer claims -/

/-- Pad state for the end-to-end scenario of the spec: the LEFT-X axis
currently reads 0.5, nothing else is active. -/
def scenPad : Pad :=
  { pressed := fun _ => false, wasPressed := fun _ => false,
    axisVal := fun n => if n = "LEFT-X" then 1/2 else 0 }

/-- Mapping entry of the scenario: LEFT-X drives the X movement axis
through the xy joystick profile. -/
def scenEntry : MappedCommand :=
  { axis := some (xy_joystick_axis "LEFT-X"), movement_axis := some MovementAxis.X }

/-- Idle pad: nothing pressed, no pending edges, all axes at rest. -/
def idlePad : Pad :=
  { pressed := fun _ => false, wasPressed := fun _ => false, axisVal := fun _ => 0 }

/-- Pad with a pending PS edge and every axis reading 1: used to show the
fixed-command short-circuit suppressing a simultaneously triggered axis. -/
def padPS : Pad :=
  { pressed := fun _ => false, wasPressed := fun n => n == "PS", axisVal := fun _ => 1 }

/-- Axis entry that would synthesize motion when reached (its trigger is
the default, always true). -/
def axEntryActive : MappedCommand :=
  { axis := some { label := "RIGHT-Y" }, movement_axis := some MovementAxis.Y }

/-- One directional-button entry as the directional_buttons factory builds
them, with its direction and magnitude profile as parameters. -/
def dirEntry (b : String) (d : Direction) (ax : MovementAxis)
    (mag : MagnitudeAxis) : MappedCommand :=
  { button := b, movement_axis := some ax, direction := some d,
    magnitude_axis := some mag, repeat_if_pressed := true }

/-- Integer-valued magnitude profile (kernel-computable thresholds). -/
def magInt : MagnitudeAxis :=
  { label := "L2", slow_move_step := 1, mid_move_step := 1,
    fast_move_step := 10, slow_when_below := 0, fast_when_above := 1 }

/-- Pad with every button held: two directional buttons on the same axis
fire in one tick. -/
def padHeld : Pad :=
  { pressed := fun _ => true, wasPressed := fun _ => false, axisVal := fun _ => 0 }

/-! ## src/gamepad.py : protocol decoder and input state tracker -/

/-- Event type codes (gamepad.py lines 22-25). -/
def EVENT_CODE_BUTTON : Nat := 0x01

/-- Event type code for axis events. -/
def EVENT_CODE_AXIS : Nat := 0x02

/-- Init-button code: 0x80 ||| EVENT_CODE_BUTTON. -/
def EVENT_CODE_INIT_BUTTON : Nat := 0x81

/-- Init-axis code: 0x80 ||| EVENT_CODE_AXIS. -/
def EVENT_CODE_INIT_AXIS : Nat := 0x82

/-- MAX_AXIS (gamepad.py line 27): the divisor used to normalize raw axis
values. -/
def MAX_AXIS : ℚ := 32767

/-- A decoded raw event as _get_next_event_raw returns it: timestamp,
signed 16-bit value, type code, index. -/
structure RawEvent where
  timestamp : Nat
  value : Int
  event_type : Nat
  index : Nat
deriving DecidableEq, Repr

/-- The raw value field fits the i16 the struct format decodes. -/
def RawEvent.i16 (e : RawEvent) : Prop :=
  -32768 ≤ e.value ∧ e.value ≤ 32767

/-- Errors raised by the tracker/decoder: IOError for the disconnect
paths, struct.error for an unpack of the wrong byte count, KeyError for a
missing per-index dict entry, ValueError for name lookups. -/
inductive GpErr
  | ioDisconnected
  | structError
  | keyError
  | valueError
deriving DecidableEq, Repr

/-- Registering a callback-list key (pressed_event_map[index] = [] and
friends): the callback lists stay empty (they only carry debug logging
hooks), so each map is modelled by its key set. -/
def addIdx (l : List Nat) (i : Nat) : List Nat :=
  if i ∈ l then l else l ++ [i]

/-- Mutable state of a Gamepad (gamepad.py __init__, lines 55-76): dicts
as association lists, callback maps as their key sets, plus the static
name tables and their reverse maps. -/
structure GamepadState where
  pressed_map : List (Nat × Bool) := []
  was_pressed_map : List (Nat × Bool) := []
  was_released_map : List (Nat × Bool) := []
  axis_map : List (Nat × ℚ) := []
  pressed_event_map : List Nat := []
  released_event_map : List Nat := []
  changed_event_map : List Nat := []
  moved_event_map : List Nat := []
  button_names : List (Nat × String) := []
  button_index : List (String × Nat) := []
  axis_names : List (Nat × String) := []
  axis_index : List (String × Nat) := []
  last_timestamp : Nat := 0
  connected : Bool := true
deriving DecidableEq, Repr

/-- Gamepad construction (gamepad.py __init__ plus _setup_reverse_maps):
empty state with the given name tables and their reverse lookups. -/
def Gamepad.mk0 (button_names axis_names : List (Nat × String)) : GamepadState :=
  { button_names := button_names,
    button_index := button_names.map (fun p => (p.2, p.1)),
    axis_names := axis_names,
    axis_index := axis_names.map (fun p => (p.2, p.1)) }

/-- update_state (gamepad.py lines 202-240): apply one decoded event.
Iterating a callback list for an index that was never registered by an
init event is a KeyError in the source; the callback bodies themselves
only log.  Mutation order follows the source: the edge flag is written
before the callback lookup that can raise, the level after it, and a
KeyError propagates out of update_state uncaught. -/
def update_state (s : GamepadState) (e : RawEvent) : Except GpErr GamepadState :=
  let s := { s with last_timestamp := e.timestamp }
  if e.event_type = EVENT_CODE_BUTTON then
    if e.value = 0 then
      let s := { s with was_released_map := setK s.was_released_map e.index true }
      if e.index ∈ s.released_event_map then
        let s := { s with pressed_map := setK s.pressed_map e.index false }
        if e.index ∈ s.changed_event_map then .ok s else .error .keyError
      else .error .keyError
    else
      let s := { s with was_pressed_map := setK s.was_pressed_map e.index true }
      if e.index ∈ s.pressed_event_map then
        let s := { s with pressed_map := setK s.pressed_map e.index true }
        if e.index ∈ s.changed_event_map then .ok s else .error .keyError
      else .error .keyError
  else if e.event_type = EVENT_CODE_AXIS then
    let s := { s with axis_map := setK s.axis_map e.index ((e.value : ℚ) / MAX_AXIS) }
    if e.index ∈ s.moved_event_map then .ok s else .error .keyError
  else if e.event_type = EVENT_CODE_INIT_BUTTON then
    .ok { s with pressed_map := setK s.pressed_map e.index (decide (e.value ≠ 0)),
                 was_pressed_map := setK s.was_pressed_map e.index false,
                 was_released_map := setK s.was_released_map e.index false,
                 pressed_event_map := addIdx s.pressed_event_map e.index,
                 released_event_map := addIdx s.released_event_map e.index,
                 changed_event_map := addIdx s.changed_event_map e.index }
  else if e.event_type = EVENT_CODE_INIT_AXIS then
    .ok { s with axis_map := setK s.axis_map e.index ((e.value : ℚ) / MAX_AXIS),
                 moved_event_map := addIdx s.moved_event_map e.index }
  else .ok s

/-- A sequence of decoded events applied by the background pump, stopping
at the first uncaught error. -/
def applyEvents (s : GamepadState) : List RawEvent → Except GpErr GamepadState
  | [] => .ok s
  | e :: es =>
    match update_state s e with
    | .error err => .error err
    | .ok s' => applyEvents s' es

/-- _get_button_index (gamepad.py line 278): reverse-map lookup with an
int(name) fallback; an unparsable name is the ValueError path. -/
def _get_button_index (s : GamepadState) (name : String) : Option Nat :=
  match s.button_index.lookup name with
  | some i => some i
  | none => name.toNat?

/-- is_pressed (gamepad.py line 287): current level, not consumed; a
missing name or index raises ValueError. -/
def is_pressed (s : GamepadState) (name : String) : Except GpErr Bool :=
  match _get_button_index s name with
  | none => .error .valueError
  | some i =>
    match s.pressed_map.lookup i with
    | none => .error .valueError
    | some b => .ok b

/-- been_pressed (gamepad.py line 300): consume-on-read — a true flag is
cleared and reported true; a false flag is reported without a write. -/
def been_pressed (s : GamepadState) (name : String) :
    Except GpErr (Bool × GamepadState) :=
  match _get_button_index s name with
  | none => .error .valueError
  | some i =>
    match s.was_pressed_map.lookup i with
    | none => .error .valueError
    | some b =>
      if b then
        .ok (true, { s with was_pressed_map := setK s.was_pressed_map i false })
      else .ok (false, s)

/-! ## The binary record decoder (gamepad.py lines 55-76 and 98-116) -/

/-- struct.calcsize of the native format 'LhBB': the C unsigned long
(longSize bytes, 4 on 32-bit platforms, 8 on LP64) followed by an aligned
i16 and two u8 with no padding. -/
def calcsizeLhBB (longSize : Nat) : Nat := longSize + 2 + 1 + 1

/-- Little-endian value of a byte list. -/
def leDecode (bs : List Nat) : Nat :=
  bs.foldr (fun b acc => b + 256 * acc) 0

/-- struct.unpack of the native little-endian format 'LhBB': exactly
calcsize bytes or a struct.error (modelled as none); fields are the
unsigned long timestamp, the signed 16-bit value in two's complement, and
the two trailing bytes (type code and index). -/
def unpackLhBB (longSize : Nat) (bs : List Nat) :
    Option (Nat × Int × Nat × Nat) :=
  if bs.length = calcsizeLhBB longSize then
    let ts := leDecode (bs.take longSize)
    let v := leDecode ((bs.drop longSize).take 2)
    let value : Int := if v < 32768 then (v : Int) else (v : Int) - 65536
    some (ts, value, bs.getD (longSize + 2) 0, bs.getD (longSize + 3) 0)
  else none

/-- What one joystick_file.read call yields: an IOError from the device, a
None (a non-blocking stream with nothing buffered), or bytes (possibly
fewer than requested, e.g. empty at end of stream). -/
inductive ReadResult
  | ioError
  | nodata
  | data : List Nat → ReadResult
deriving DecidableEq, Repr

/-- _get_next_event_raw (gamepad.py lines 98-116) as a function of the
connected flag and the read's outcome: the pair is the connected flag
after the call and the decoded tuple or the raised error.  An IOError from
read and a None result clear the flag and re-raise IOError (the
disconnect path); any returned bytes go to struct.unpack, whose failure on
a wrong byte count is a struct.error with the flag untouched. -/
def _get_next_event_raw (longSize : Nat) (connected : Bool) (r : ReadResult) :
    Bool × Except GpErr (Nat × Int × Nat × Nat) :=
  if connected then
    match r with
    | .ioError => (false, .error .ioDisconnected)
    | .nodata => (false, .error .ioDisconnected)
    | .data bs =>
      match unpackLhBB longSize bs with
      | some t => (true, .ok t)
      | none => (true, .error .structError)
  else (false, .error .ioDisconnected)

/-! ## Supporting definitions for the tracker and decoder claims -/

/-- Decidable equality of Except results, for evaluating runs on concrete
inputs. -/
instance instDecEqExcept {e a : Type} [DecidableEq e] [DecidableEq a] :
    DecidableEq (Except e a) := fun x y =>
  match x, y with
  | .error u, .error v =>
    match decEq u v with
    | isTrue h => isTrue (by rw [h])
    | isFalse h => isFalse (fun hc => h (Except.error.inj hc))
  | .ok u, .ok v =>
    match decEq u v with
    | isTrue h => isTrue (by rw [h])
    | isFalse h => isFalse (fun hc => h (Except.ok.inj hc))
  | .error _, .ok _ => isFalse (fun hc => Except.noConfusion hc)
  | .ok _, .error _ => isFalse (fun hc => Except.noConfusion hc)

/-- Range invariant the tracker actually maintains for stored axis values:
each is value/32767 for an i16 value, so it lies in [-32768/32767, 1]
(the claimed [-1, 1] fails only at raw value -32768). -/
def axisBounded (s : GamepadState) : Prop :=
  ∀ i q, (i, q) ∈ s.axis_map → -(32768/32767 : ℚ) ≤ q ∧ q ≤ 1

/-- The event is an init event (button or axis) for index i: the only kind
of event that registers the per-index callback lists. -/
def initFor (e : RawEvent) (i : Nat) : Prop :=
  e.index = i ∧
    (e.event_type = EVENT_CODE_INIT_BUTTON ∨ e.event_type = EVENT_CODE_INIT_AXIS)

/-- Tracker state after an init-axis event for index 0 followed by a live
axis event with the raw value -32768. -/
def c5State : GamepadState :=
  { axis_map := [(0, -(32768/32767 : ℚ))], moved_event_map := [0],
    last_timestamp := 1 }

/-- Tracker state after an init-button event for index 0 reporting the
button already held (value 1). -/
def c6Init : GamepadState :=
  { pressed_map := [(0, true)], was_pressed_map := [(0, false)],
    was_released_map := [(0, false)], pressed_event_map := [0],
    released_event_map := [0], changed_event_map := [0] }

/-- The same tracker after one more live button event with value 1: the
level does not change, yet the wasPressed edge flag is set. -/
def c6State : GamepadState :=
  { pressed_map := [(0, true)], was_pressed_map := [(0, true)],
    was_released_map := [(0, false)], pressed_event_map := [0],
    released_event_map := [0], changed_event_map := [0],
    last_timestamp := 1 }

/-- Tracker whose button PS (index 0) has been initialized. -/
def trackerPS : GamepadState :=
  { button_index := [("PS", 0)], pressed_event_map := [0],
    changed_event_map := [0] }

/-! ## Helper lemmas -/

/-- Running the mapping loop over a concatenation: the second part runs in
the pad state and accumulators the first part fell through with. -/
theorem runActions_append (l1 l2 : List MappedCommand) (p : Pad)
    (m : List (Option MovementAxis × Move)) :
    runActions (l1 ++ l2) p m =
      match runActions l1 p m with
      | .error e => .error e
      | .ok (.ret cs) => .ok (.ret cs)
      | .ok (.fall p' m') => runActions l2 p' m' := by
  induction l1 generalizing p m with
  | nil => simp [runActions]
  | cons a rest ih =>
    simp only [List.cons_append, runActions]
    rcases h : stepOne a p m with e | r
    · rfl
    · rcases r with cs | ⟨p', m'⟩
      · rfl
      · exact ih p' m'

/-- A pressed button entry with a non-empty fixed command list makes the
loop body return those commands at once. -/
theorem stepOne_fixed (a : MappedCommand) (p : Pad)
    (m : List (Option MovementAxis × Move))
    (hp : (pressedThisTick a p).1 = true) (hc : a.commands ≠ []) :
    stepOne a p m = .ok (.ret a.commands) := by
  have he : a.commands.isEmpty = false := by
    cases hcm : a.commands
    · exact absurd hcm hc
    · rfl
  simp only [stepOne, hp, he, Bool.not_false, Bool.and_true, if_true]

/-! ## Claim theorems for the synthesizer -/

/-- C1: if the synthesizer reaches a button entry whose pressed-this-tick
test is true and whose fixed command list is non-empty, the tick's result
is exactly that entry's command list: no motion command is appended and
nothing after the entry is processed, whatever the rest of the mapping
list or the pad state holds.  "Reaches" is: the loop over the prefix fell
through without an early return or an error. -/
theorem fixed_command_short_circuit (l1 l2 : List MappedCommand)
    (a : MappedCommand) (p p' : Pad) (m' : List (Option MovementAxis × Move))
    (h1 : runActions l1 p [] = .ok (.fall p' m'))
    (hp : (pressedThisTick a p').1 = true)
    (hc : a.commands ≠ []) :
    get_commands (l1 ++ a :: l2) p = .ok a.commands := by
  unfold get_commands
  rw [runActions_append, h1]
  simp only [runActions, stepOne_fixed a p' m' hp hc]

/-- C1 witness: with a homing entry whose button edge is pending, a prior
zero entry that is not pressed, and a following axis entry that would
synthesize motion, the tick returns exactly the homing command. -/
theorem fixed_command_short_circuit_witness :
    get_commands [zero "R1", homing "PS", axEntryActive] padPS =
      .ok [⟨["homing"]⟩] :=
  fixed_command_short_circuit [zero "R1"] [axEntryActive] (homing "PS")
    padPS padPS [] rfl rfl (by decide)

/-- C2: when the loop falls through (no fixed command fired), a non-empty
increment list is emitted as exactly two commands — one gcode command
bundling G91 with every per-axis increment, then the single gcode G90 —
and an empty increment list yields the empty result; and in the spec's
end-to-end scenario (LEFT-X mapped to X through the xy profile, current
value 0.5) the tick's result is exactly
("gcode", "G91 X1") followed by ("gcode", "G90"). -/
theorem relative_move_bundle (actions : List MappedCommand) (p p' : Pad)
    (m : List (Option MovementAxis × Move)) (gm : List String)
    (h1 : runActions actions p [] = .ok (.fall p' m))
    (h2 : finishMoves p' m = .ok gm) :
    (gm ≠ [] → get_commands actions p =
      .ok [⟨["gcode", String.intercalate " " ("G91" :: gm)]⟩, ⟨["gcode", "G90"]⟩]) ∧
    (gm = [] → get_commands actions p = .ok []) ∧
    get_commands [scenEntry] scenPad =
      .ok [⟨["gcode", "G91 X1"]⟩, ⟨["gcode", "G90"]⟩] := by
  refine ⟨?_, ?_, ?_⟩
  · intro hgm
    unfold get_commands
    rw [h1]
    dsimp only
    rw [h2]
    have : gm.isEmpty = false := by
      cases hg : gm
      · exact absurd hg hgm
      · rfl
    simp [this]
  · intro hgm
    unfold get_commands
    rw [h1]
    dsimp only
    rw [h2, hgm]
    rfl
  · norm_num [get_commands, runActions, stepOne, pressedThisTick, Pad.beenPressed,
      signDiv, updMoves, setK, MagnitudeAxis.has_triggered,
      MagnitudeAxis.travel_distance, MappedCommand.axis_direction_multiplier,
      abs_of_pos, MovementAxis.value, finishMoves, fmtNum, scenPad, scenEntry,
      xy_joystick_axis, String.intercalate]
    rfl

/-- C2 witness: the theorem applied at the empty mapping list (the loop
falls through with no increments) reproduces the scenario conclusion. -/
theorem relative_move_bundle_witness :
    get_commands [scenEntry] scenPad =
      .ok [⟨["gcode", "G91 X1"]⟩, ⟨["gcode", "G90"]⟩] :=
  (relative_move_bundle [] idlePad idlePad [] [] rfl rfl).2.2

/-- C3 (code bug in the source): under the default trigger threshold
(-inf) an axis value of exactly 0.0 counts as triggered, and the
synthesizer then evaluates int(0.0 / abs(0.0)), which raises
ZeroDivisionError instead of adding sign(0) multiplied by the direction
multiplier to the accumulator: the whole tick aborts. -/
theorem axis_zero_division_crash :
    MagnitudeAxis.has_triggered {} 0 = true ∧
    signDiv 0 = .error PyErr.zeroDivision ∧
    get_commands [{ axis := some {}, movement_axis := some MovementAxis.X }] idlePad =
      .error PyErr.zeroDivision := by
  refine ⟨rfl, rfl, ?_⟩
  norm_num [get_commands, runActions, stepOne, pressedThisTick, signDiv,
    MagnitudeAxis.has_triggered, idlePad]

/-- C9: two directional-button entries targeting the same movement axis in
one tick have their signed direction contributions summed, and the emitted
per-axis increment is travel distance times that raw sum (which can have
magnitude 2), not times its sign; a sum of zero cancels the move. -/
theorem same_axis_contributions_sum (b1 b2 : String) (d1 d2 : Direction)
    (ax : MovementAxis) (mag : MagnitudeAxis) (p : Pad)
    (hb1 : b1 ≠ "") (hb2 : b2 ≠ "")
    (hp1 : p.pressed b1 = true) (hp2 : p.pressed b2 = true) :
    (d1.value + d2.value ≠ 0 →
      get_commands [dirEntry b1 d1 ax mag, dirEntry b2 d2 ax mag] p =
        .ok [⟨["gcode", String.intercalate " "
                ["G91", ax.value ++ fmtNum (mag.travel_distance (p.axisVal mag.label) *
                  ((d1.value + d2.value : Int) : ℚ))]]⟩,
             ⟨["gcode", "G90"]⟩]) ∧
    (d1.value + d2.value = 0 →
      get_commands [dirEntry b1 d1 ax mag, dirEntry b2 d2 ax mag] p = .ok []) := by
  have hm : runActions [dirEntry b1 d1 ax mag, dirEntry b2 d2 ax mag] p [] =
      .ok (.fall p [(some ax, ⟨d1.value + d2.value, some mag⟩)]) := by
    simp [runActions, stepOne, dirEntry, pressedThisTick, hb1, hb2, hp1, hp2,
      updMoves, setK]
  constructor
  · intro hs
    unfold get_commands
    rw [hm]
    dsimp only
    simp [finishMoves, hs]
  · intro hs
    unfold get_commands
    rw [hm]
    dsimp only
    simp [finishMoves, hs]

/-- C9 witness: two held positive-direction buttons for X give accumulated
direction 2 and the emitted increment X2 (travel distance 1 times the raw
sum 2, not its sign). -/
theorem same_axis_contributions_sum_witness :
    get_commands [dirEntry "A" .POSITIVE .X magInt, dirEntry "B" .POSITIVE .X magInt]
        padHeld =
      .ok [⟨["gcode", "G91 X2"]⟩, ⟨["gcode", "G90"]⟩] := by
  have h := (same_axis_contributions_sum "A" "B" .POSITIVE .POSITIVE .X magInt padHeld
    (by decide) (by decide) rfl rfl).1 (by decide)
  norm_num [magInt, padHeld, MagnitudeAxis.travel_distance, Direction.value] at h
  exact h

/-- Looking up the key just stored by a dict assignment yields the stored
value. -/
theorem lookup_setK_self {κ α : Type} [DecidableEq κ] (m : List (κ × α))
    (k : κ) (v : α) : (setK m k v).lookup k = some v := by
  induction m with
  | nil => simp [setK]
  | cons kv rest ih =>
    obtain ⟨k', v'⟩ := kv
    by_cases h : k' = k
    · subst h
      simp [setK]
    · have hbe : (k == k') = false :=
        beq_eq_false_iff_ne.mpr (fun hc => h hc.symm)
      simp [setK, h, List.lookup, ih, hbe]

/-- Every pair of a dict after an assignment is the assigned pair or a
pair of the old dict. -/
theorem mem_setK {κ α : Type} [DecidableEq κ] {m : List (κ × α)} {k : κ}
    {v : α} {x : κ × α} (hx : x ∈ setK m k v) : x = (k, v) ∨ x ∈ m := by
  induction m with
  | nil => simpa [setK] using hx
  | cons kv rest ih =>
    obtain ⟨k', v'⟩ := kv
    by_cases h : k' = k
    · subst h
      simp [setK] at hx
      rcases hx with h1 | h1
      · exact Or.inl h1
      · exact Or.inr (List.mem_cons_of_mem _ h1)
    · simp [setK, h] at hx
      rcases hx with h1 | h1
      · exact Or.inr (by simp [h1])
      · rcases ih h1 with h2 | h2
        · exact Or.inl h2
        · exact Or.inr (List.mem_cons_of_mem _ h2)

/-- Membership after registering a callback-list key. -/
theorem mem_addIdx {l : List Nat} {i j : Nat} (h : i ∈ addIdx l j) :
    i ∈ l ∨ i = j := by
  unfold addIdx at h
  by_cases hj : j ∈ l
  · simp [hj] at h
    exact Or.inl h
  · simp [hj] at h
    exact h

/-- C4: after a press event on an initialized button, the first
been_pressed read returns true and clears the flag, an immediately
repeated read returns false, and is_pressed reads keep returning the
current (pressed) level unchanged, consumed by nothing. -/
theorem been_pressed_consume_on_read (s : GamepadState) (name : String)
    (i t : Nat) (v : Int)
    (hn : s.button_index.lookup name = some i)
    (hv : v ≠ 0)
    (hm1 : i ∈ s.pressed_event_map)
    (hm2 : i ∈ s.changed_event_map) :
    ∃ s1 s2,
      update_state s ⟨t, v, EVENT_CODE_BUTTON, i⟩ = .ok s1 ∧
      been_pressed s1 name = .ok (true, s2) ∧
      been_pressed s2 name = .ok (false, s2) ∧
      is_pressed s1 name = .ok true ∧
      is_pressed s2 name = .ok true := by
  refine ⟨{ s with last_timestamp := t, was_pressed_map := setK s.was_pressed_map i true, pressed_map := setK s.pressed_map i true }, { s with last_timestamp := t, was_pressed_map := setK (setK s.was_pressed_map i true) i false, pressed_map := setK s.pressed_map i true }, ?_, ?_, ?_, ?_, ?_⟩
  · simp [update_state, hv, hm1, hm2]
  · simp [been_pressed, _get_button_index, hn, lookup_setK_self]
  · simp [been_pressed, _get_button_index, hn, lookup_setK_self]
  · simp [is_pressed, _get_button_index, hn, lookup_setK_self]
  · simp [is_pressed, _get_button_index, hn, lookup_setK_self]

/-- C4 witness: the consume-on-read sequence on a tracker whose PS button
(index 0) is initialized, after a press event with value 1. -/
theorem been_pressed_consume_on_read_witness :
    ∃ s1 s2,
      update_state trackerPS ⟨5, 1, EVENT_CODE_BUTTON, 0⟩ = .ok s1 ∧
      been_pressed s1 "PS" = .ok (true, s2) ∧
      been_pressed s2 "PS" = .ok (false, s2) ∧
      is_pressed s1 "PS" = .ok true ∧
      is_pressed s2 "PS" = .ok true :=
  been_pressed_consume_on_read trackerPS "PS" 0 5 1 rfl (by decide)
    (by decide) (by decide)

/-- Normalizing an i16 raw value by 32767 lands in [-32768/32767, 1]. -/
theorem norm_in_range (v : Int) (h1 : -32768 ≤ v) (h2 : v ≤ 32767) :
    -(32768/32767 : ℚ) ≤ (v : ℚ) / MAX_AXIS ∧ (v : ℚ) / MAX_AXIS ≤ 1 := by
  have hv1 : (-32768 : ℚ) ≤ (v : ℚ) := by exact_mod_cast h1
  have hv2 : (v : ℚ) ≤ 32767 := by exact_mod_cast h2
  unfold MAX_AXIS
  constructor
  · have hneg : -(32768/32767 : ℚ) = (-32768 : ℚ) / 32767 := by norm_num
    rw [hneg, div_le_div_iff_of_pos_right (by norm_num)]
    exact hv1
  · rw [div_le_one (by norm_num)]
    exact hv2

/-- One applied event keeps every stored axis value in the range the
tracker maintains, provided the event's raw value is an i16. -/
theorem update_state_axisBounded (s s' : GamepadState) (e : RawEvent)
    (hwf : e.i16) (h0 : axisBounded s) (h : update_state s e = .ok s') :
    axisBounded s' := by
  obtain ⟨hw1, hw2⟩ := hwf
  unfold update_state at h
  dsimp only at h
  repeat' split at h
  all_goals
    first
      | exact Except.noConfusion h
      | (obtain rfl := Except.ok.inj h
         intro i q hq
         first
           | exact h0 i q hq
           | (rcases mem_setK hq with h1 | h1
              · obtain rfl : q = (e.value : ℚ) / MAX_AXIS := congrArg Prod.snd h1
                exact norm_in_range e.value hw1 hw2
              · exact h0 i q h1))

/-- C5 amended: after any sequence of decoded events (raw values in the
i16 range) is applied from a state whose axis values are in range, every
stored axis value lies in [-32768/32767, 1] — the normalization divides by
32767, so the raw value -32768 lands at -32768/32767, just below -1. -/
theorem axis_values_bounded (es : List RawEvent) (s0 s : GamepadState)
    (hwf : ∀ e ∈ es, e.i16)
    (h0 : axisBounded s0)
    (h : applyEvents s0 es = .ok s) :
    axisBounded s := by
  induction es generalizing s0 with
  | nil =>
    obtain rfl : s0 = s := Except.ok.inj h
    exact h0
  | cons e es ih =>
    unfold applyEvents at h
    rcases hu : update_state s0 e with err | s1
    · rw [hu] at h
      exact Except.noConfusion h
    · rw [hu] at h
      dsimp only at h
      exact ih s1 (fun x hx => hwf x (List.mem_cons_of_mem _ hx))
        (update_state_axisBounded s0 s1 e (hwf e (List.mem_cons_self _ _)) h0 hu) h

/-- C5 counterexample: the raw axis value -32768 (a valid i16 the struct
format 'h' can deliver) is stored as -32768/32767, which is outside
[-1, 1]: the claimed interval does not hold as stated. -/
theorem axis_range_counterexample :
    applyEvents {} [⟨0, 0, EVENT_CODE_INIT_AXIS, 0⟩, ⟨1, -32768, EVENT_CODE_AXIS, 0⟩] =
      .ok c5State ∧
    c5State.axis_map.lookup 0 = some (-(32768/32767 : ℚ)) ∧
    ¬ ((-1 : ℚ) ≤ -(32768/32767 : ℚ)) := by
  refine ⟨?_, rfl, by norm_num⟩
  norm_num [applyEvents, update_state, setK, addIdx, MAX_AXIS, c5State,
    EVENT_CODE_BUTTON, EVENT_CODE_AXIS, EVENT_CODE_INIT_BUTTON,
    EVENT_CODE_INIT_AXIS, GamepadState.mk.injEq]

/-- C5 witness: the amended bound applied to the state reached by the
counterexample event sequence, at the stored extreme value. -/
theorem axis_values_bounded_witness :
    -(32768/32767 : ℚ) ≤ -(32768/32767 : ℚ) ∧ -(32768/32767 : ℚ) ≤ 1 :=
  axis_values_bounded
    [⟨0, 0, EVENT_CODE_INIT_AXIS, 0⟩, ⟨1, -32768, EVENT_CODE_AXIS, 0⟩] {} c5State
    (by intro e he; simp [List.mem_cons] at he; rcases he with rfl | rfl <;>
      exact ⟨by decide, by decide⟩)
    (by intro i q hq; simp at hq)
    (by norm_num [applyEvents, update_state, setK, addIdx, MAX_AXIS, c5State,
      EVENT_CODE_BUTTON, EVENT_CODE_AXIS, EVENT_CODE_INIT_BUTTON,
      EVENT_CODE_INIT_AXIS, GamepadState.mk.injEq])
    0 (-(32768/32767 : ℚ)) (by simp [c5State])

/-- C6 counterexample: with the button of index 0 already pressed (since
its init event), a further non-init button event with value 1 causes no
released-to-pressed transition, yet update_state sets wasPressed[0]: the
flags are set by value alone, not by transitions. -/
theorem edge_flag_without_transition :
    applyEvents {} [⟨0, 1, EVENT_CODE_INIT_BUTTON, 0⟩, ⟨1, 1, EVENT_CODE_BUTTON, 0⟩] =
      .ok c6State ∧
    applyEvents {} [⟨0, 1, EVENT_CODE_INIT_BUTTON, 0⟩] = .ok c6Init ∧
    c6Init.pressed_map.lookup 0 = some true ∧
    c6Init.was_pressed_map.lookup 0 = some false ∧
    c6State.pressed_map.lookup 0 = some true ∧
    c6State.was_pressed_map.lookup 0 = some true := by decide

/-- C6 amended: a successful non-init button event sets wasPressed[index]
whenever its value is non-zero and wasReleased[index] whenever its value
is zero, with no transition check: a repeated event that leaves the level
unchanged still sets the corresponding edge flag. -/
theorem edge_flags_set_unconditionally (s s' : GamepadState) (e : RawEvent)
    (ht : e.event_type = EVENT_CODE_BUTTON)
    (h : update_state s e = .ok s') :
    (e.value ≠ 0 → s'.was_pressed_map.lookup e.index = some true) ∧
    (e.value = 0 → s'.was_released_map.lookup e.index = some true) := by
  unfold update_state at h
  dsimp only at h
  rw [if_pos ht] at h
  constructor
  · intro hv
    rw [if_neg hv] at h
    split at h
    · split at h
      · obtain rfl := Except.ok.inj h
        exact lookup_setK_self _ _ _
      · exact Except.noConfusion h
    · exact Except.noConfusion h
  · intro hv
    rw [if_pos hv] at h
    split at h
    · split at h
      · obtain rfl := Except.ok.inj h
        exact lookup_setK_self _ _ _
      · exact Except.noConfusion h
    · exact Except.noConfusion h

/-- C6 witness: the amended rule applied to the already-pressed tracker
and the repeated press event. -/
theorem edge_flags_set_unconditionally_witness :
    c6State.was_pressed_map.lookup 0 = some true :=
  (edge_flags_set_unconditionally c6Init c6State ⟨1, 1, EVENT_CODE_BUTTON, 0⟩ rfl
    (by decide)).1 (by decide)

/-- C7 amended: on a platform whose C unsigned long is 4 bytes (the
32-bit little-endian hosts the record layout was written for),
struct.calcsize('LhBB') is exactly 8 and unpacking an 8-byte record
yields the little-endian u32 timestamp, the two's-complement i16 value,
and the two trailing bytes (type code, index). -/
theorem record_layout_32bit (b0 b1 b2 b3 b4 b5 b6 b7 : Nat) :
    calcsizeLhBB 4 = 8 ∧
    unpackLhBB 4 [b0, b1, b2, b3, b4, b5, b6, b7] =
      some (b0 + 256 * b1 + 65536 * b2 + 16777216 * b3,
        (if b4 + 256 * b5 < 32768 then ((b4 + 256 * b5 : Nat) : Int)
         else ((b4 + 256 * b5 : Nat) : Int) - 65536), b6, b7) := by
  refine ⟨rfl, ?_⟩
  simp [unpackLhBB, calcsizeLhBB, leDecode, List.getD]
  omega

/-- C7 counterexample: on an LP64 platform (unsigned long of 8 bytes —
any 64-bit Linux host) the native format 'LhBB' measures 12 bytes, not
the fixed 8 the claim states, and an 8-byte record fails to unpack. -/
theorem record_layout_lp64_counterexample :
    calcsizeLhBB 8 = 12 ∧ calcsizeLhBB 8 ≠ 8 ∧
    unpackLhBB 8 [0, 0, 0, 0, 0, 0, 0, 0] = none := by decide

/-- C8 amended: with the tracker connected, a read that raises IOError or
returns None clears the connected flag and raises the disconnect IOError;
but a read that returns too few bytes for one record (including the empty
bytes of an end-of-stream read) reaches struct.unpack and raises
struct.error instead, leaving the connected flag true. -/
theorem read_failure_paths (longSize : Nat) (bs : List Nat)
    (h : bs.length ≠ calcsizeLhBB longSize) :
    _get_next_event_raw longSize true .ioError = (false, .error .ioDisconnected) ∧
    _get_next_event_raw longSize true .nodata = (false, .error .ioDisconnected) ∧
    _get_next_event_raw longSize true (.data bs) = (true, .error .structError) := by
  refine ⟨rfl, rfl, ?_⟩
  simp [_get_next_event_raw, unpackLhBB, h]

/-- C8 counterexample: an empty read (end of stream) is neither None nor
an IOError, so the decoder raises struct.error — not the claimed
DeviceDisconnected IOError — and the connected flag stays true. -/
theorem short_read_not_disconnect_counterexample :
    _get_next_event_raw 4 true (.data []) = (true, .error .structError) ∧
    GpErr.structError ≠ GpErr.ioDisconnected ∧
    (_get_next_event_raw 4 true (.data [])).1 = true := by decide

/-- C8 witness: the short-read path applied to a one-byte read. -/
theorem read_failure_paths_witness :
    _get_next_event_raw 4 true (.data [1]) = (true, .error .structError) :=
  (read_failure_paths 4 [1] (by decide)).2.2

/-- A successfully applied event that is not an init event for index i
registers no callback-list key for i. -/
theorem update_state_no_new_init (s s' : GamepadState) (e : RawEvent) (i : Nat)
    (h : update_state s e = .ok s') (hne : ¬ initFor e i)
    (h0 : i ∉ s.pressed_event_map ∧ i ∉ s.released_event_map ∧
      i ∉ s.moved_event_map) :
    i ∉ s'.pressed_event_map ∧ i ∉ s'.released_event_map ∧
      i ∉ s'.moved_event_map := by
  obtain ⟨h1, h2, h3⟩ := h0
  unfold update_state at h
  dsimp only at h
  repeat' split at h
  all_goals first
    | exact Except.noConfusion h
    | (obtain rfl := Except.ok.inj h
       refine ⟨?_, ?_, ?_⟩ <;>
         first
           | assumption
           | (intro hmem
              rcases mem_addIdx hmem with hm | hm
              · exact absurd hm (by assumption)
              · exact hne ⟨hm.symm, by first
                  | exact Or.inl (by assumption)
                  | exact Or.inr (by assumption)⟩))

/-- Over a whole event sequence: if no event is an init event for index i
and i starts unregistered, i stays unregistered in every callback map. -/
theorem applyEvents_no_init (es : List RawEvent) (s0 s : GamepadState) (i : Nat)
    (h : applyEvents s0 es = .ok s)
    (hno : ∀ e ∈ es, ¬ initFor e i)
    (h0 : i ∉ s0.pressed_event_map ∧ i ∉ s0.released_event_map ∧
      i ∉ s0.moved_event_map) :
    i ∉ s.pressed_event_map ∧ i ∉ s.released_event_map ∧
      i ∉ s.moved_event_map := by
  induction es generalizing s0 with
  | nil =>
    obtain rfl : s0 = s := Except.ok.inj h
    exact h0
  | cons e es ih =>
    unfold applyEvents at h
    rcases hu : update_state s0 e with err | s1
    · rw [hu] at h
      exact Except.noConfusion h
    · rw [hu] at h
      dsimp only at h
      exact ih s1 h (fun x hx => hno x (List.mem_cons_of_mem _ hx))
        (update_state_no_new_init s0 s1 e i hu (hno e (List.mem_cons_self _ _)) h0)

/-- C10: from a fresh tracker, after any event sequence containing no init
event for an index, applying a live (non-init) button or axis event for
that index raises an uncaught KeyError — the per-index callback list is
missing — so pumping is total only when every live event's index was
initialized first. -/
theorem uninitialized_live_event_keyerror (es : List RawEvent)
    (s : GamepadState) (ev : RawEvent)
    (h : applyEvents {} es = .ok s)
    (hno : ∀ e ∈ es, ¬ initFor e ev.index)
    (hl : ev.event_type = EVENT_CODE_BUTTON ∨ ev.event_type = EVENT_CODE_AXIS) :
    update_state s ev = .error GpErr.keyError := by
  obtain ⟨hp, hr, hm⟩ := applyEvents_no_init es {} s ev.index h hno (by simp)
  unfold update_state
  dsimp only
  rcases hl with ht | ht
  · rw [if_pos ht]
    by_cases hv : ev.value = 0
    · rw [if_pos hv, if_neg hr]
    · rw [if_neg hv, if_neg hp]
  · have hnb : ¬ ev.event_type = EVENT_CODE_BUTTON := by
      rw [ht]
      decide
    rw [if_neg hnb, if_pos ht, if_neg hm]

/-- C10 witness: a live press event for the never-initialized index 3 on a
fresh tracker raises KeyError. -/
theorem uninitialized_live_event_keyerror_witness :
    update_state {} ⟨0, 1, EVENT_CODE_BUTTON, 3⟩ = .error GpErr.keyError :=
  uninitialized_live_event_keyerror [] {} ⟨0, 1, EVENT_CODE_BUTTON, 3⟩ rfl
    (fun e he => absurd he (List.not_mem_nil e)) (Or.inl rfl)
